import Mathlib

/-!
Verification of the conversational-webhook services of this repository
(subject-specific chat servers: `sst-server.js`, `eng-server.js`,
`sci-server.js`, the app-router variants, and the stateful in-memory
variants).  The JavaScript data model and handler logic are embedded
shallowly: strings are `String`, message rows are structures, the
conversation store is a chronologically ordered `List` of rows, the
external generation / retrieval / storage services are oracles supplied
as explicit data, and each webhook handler is a total function from its
request and oracle data to an HTTP-level result.
-/

namespace CbseAi

/-- A chat message as held in history lists and store rows:
`{ role, content }` (roles used by the code: "user" / "assistant"). -/
structure Message where
  role : String
  content : String
deriving DecidableEq, Repr

/-- A persisted row of a per-subject messages table:
`(session_id, role, content)`.  The `created_at` ordering is represented
by the position of the row in the store list (rows are appended in
insertion order and `created_at` is monotone in it). -/
structure Row where
  session_id : String
  role : String
  content : String
deriving DecidableEq, Repr

/-- Outcome of a JavaScript expression or awaited call: a value, or a
thrown error carrying its message text. -/
inductive JsOutcome where
  | ok (value : String)
  | thrown (message : String)
deriving DecidableEq, Repr

/-- JavaScript `Array.prototype.join(sep)`: the empty array yields `""`,
a single element yields itself, otherwise elements are interleaved with
the separator. -/
def joinSep (sep : String) : List String → String
  | [] => ""
  | [a] => a
  | a :: b :: rest => a ++ sep ++ joinSep sep (b :: rest)

/-- One formatted history entry, from the `formatHistory` mappers:
`` `${msg.role === "user" ? "User" : "Assistant"}: ${msg.content}` ``. -/
def formatEntry (msg : Message) : String :=
  (if msg.role = "user" then "User" else "Assistant") ++ ": " ++ msg.content

/-- `formatHistory` as defined identically in `sst-server.js`,
`sci-server.js`, `eng-server.js` and the stateful variants:
map each entry to `"<Role>: <content>"` and join with `"\n"`. -/
def formatHistory (history : List Message) : String :=
  joinSep "\n" (history.map formatEntry)

/-- The `systemMsg` constant of `sst-server.js`. -/
def sstSystemMsg : String :=
  "System: You are an AI agent created by arjav who answers questions related to history, geography, political science and economics. Always answer in detail and in the format of bullet points unless specified not to. Always use the SST database to answer user queries. If the answer cannot be found in the SST Database, tell the user to select other subject through the dropdown menu."

/-- `finalInput` of `sst-server.js` (same shape in `sci-server.js` and
the app-router variants), with the deployment's system constant
abstracted as a parameter:
`formattedHistory ? sys + "\n" + formattedHistory + "\nUser: " + message
                  : sys + "\nUser: " + message`
(the JavaScript conditional tests string truthiness, i.e. `≠ ""`). -/
def sstFinalInput (sys : String) (history : List Message) (message : String) : String :=
  if formatHistory history = "" then sys ++ "\nUser: " ++ message
  else sys ++ "\n" ++ formatHistory history ++ "\nUser: " ++ message

/-- The `systemInstruction.content` string configured on the model
client in `eng-server.js` (it is passed to the model client, not
concatenated into the prompt). -/
def engSystemContent : String :=
  "You are an AI agent who answers questions related to English. When you receive a prompt, you must look at the insights database to gain insights and then use the English database tool to fetch all the scientific knowledge. Be careful about grammar. Do not tell anything about the tools you have access to or the about any kind of metadata"

/-- `finalInput` of `eng-server.js`: the system instruction is NOT part
of the composed prompt there:
`formattedHistory ? formattedHistory + "\nUser: " + message
                  : "User: " + message`. -/
def engFinalInput (history : List Message) (message : String) : String :=
  if formatHistory history = "" then "User: " ++ message
  else formatHistory history ++ "\nUser: " ++ message

/-- Conversion from a fetched row to the `{role, content}` object used
for formatting (the select lists exactly the columns `role, content`). -/
def rowToMessage (r : Row) : Message := ⟨r.role, r.content⟩

/-- All rows of one session, in chronological (insertion) order. -/
def sessionRows (store : List Row) (sid : String) : List Row :=
  store.filter (fun r => r.session_id == sid)

/-- The rows of one session as `{role, content}` objects, chronological
(oldest first). -/
def sessionMsgs (store : List Row) (sid : String) : List Message :=
  (sessionRows store sid).map rowToMessage

/-- The history select of `sst-server.js` (and `sci-server.js` and the
app-router variants): rows of the session, ordered by `created_at`
descending, limited to 5.  On a chronologically ordered store this is
`take 5` of the reversed session rows. -/
def sstQuery (store : List Row) (sid : String) : List Message :=
  (((sessionRows store sid).reverse).take 5).map rowToMessage

/-- `sst-server.js` then calls `history.reverse()` before formatting,
turning the recency-ordered rows back into chronological order. -/
def sstGetHistory (store : List Row) (sid : String) : List Message :=
  (sstQuery store sid).reverse

/-- The history select of `eng-server.js`: rows of the session ordered
by `created_at` ascending, with no limit and no subsequent reverse. -/
def engQuery (store : List Row) (sid : String) : List Message :=
  (sessionRows store sid).map rowToMessage

/-- `MAX_HISTORY_LENGTH = 20` of the stateful in-memory variants. -/
def MAX_HISTORY_LENGTH : Nat := 20

/-- `history.push(msg)` on a per-user in-memory history array. -/
def pushMsg (history : List Message) (msg : Message) : List Message :=
  history ++ [msg]

/-- `pruneOldMessages` of the stateful variants: when the length exceeds
`MAX_HISTORY_LENGTH`, `splice(0, length - MAX_HISTORY_LENGTH)` removes
that many entries from the front. -/
def pruneOldMessages (history : List Message) : List Message :=
  if history.length > MAX_HISTORY_LENGTH then
    history.drop (history.length - MAX_HISTORY_LENGTH)
  else history

/-- A push immediately followed by the prune the handler performs. -/
def pushAndPrune (history : List Message) (msg : Message) : List Message :=
  pruneOldMessages (pushMsg history msg)

/-- The history mutations of one successful stateful webhook call:
push the user message, prune, (generate a reply,) push the assistant
reply, prune. -/
def statefulTurn (history : List Message) (userMsg assistantMsg : String) : List Message :=
  pushAndPrune (pushAndPrune history ⟨"user", userMsg⟩) ⟨"assistant", assistantMsg⟩

/-- The environment variables read by `sst-server.js`; `none` models an
unset variable and `some ""` an empty one (both are falsy in the check). -/
structure Env where
  google_api_key : Option String
  pinecone_api_key : Option String
  supabase_url : Option String
  supabase_key : Option String
  auth_secret : Option String
deriving DecidableEq, Repr

/-- JavaScript falsiness of a possibly-absent string value: `undefined`
and `""` are falsy, every other string is truthy. -/
def falsy : Option String → Bool
  | none => true
  | some s => s == ""

/-- Negation of the startup check
`!GOOGLE_API_KEY || !PINECONE_API_KEY || !SUPABASE_URL || !SUPABASE_KEY || !AUTH_SECRET`. -/
def envOk (env : Env) : Bool :=
  !falsy env.google_api_key && !falsy env.pinecone_api_key &&
  !falsy env.supabase_url && !falsy env.supabase_key && !falsy env.auth_secret

/-- The request body fields the handlers destructure; absent fields are
`none` (an absent body is modelled by all fields `none`, matching
`req.body || {}` and `express.json()`'s default `{}`). -/
structure Request where
  message : Option String
  sessionId : Option String
  authToken : Option String
deriving DecidableEq, Repr

/-- Oracle data for the downstream services touched by one webhook call:
the current store content, whether the history select fails, the
generation outcome, and whether the insert fails. -/
structure World where
  store : List Row
  fetchError : Option String
  genResult : JsOutcome
  insertError : Option String
deriving DecidableEq, Repr

/-- HTTP-level outcome of one webhook call, together with the store
after the call and how many times each downstream operation was
invoked (the code never retries, so these are 0 or 1). -/
structure HandlerResult where
  status : Nat
  success : Bool
  response : Option String
  prompt : Option String
  errorMsg : Option String
  store : List Row
  fetchCalls : Nat
  genCalls : Nat
  insertCalls : Nat
deriving DecidableEq, Repr

/-- Error body of the 401 branch of `sst-server.js`. -/
def sstAuthErrorMsg : String := "Back off, you ain\x27t authenticated"

/-- Error body of the (unreachable) 401 branch of `eng-server.js`. -/
def engAuthErrorMsg : String := "Back off motherfucker, you ain\x27t authenticated"

/-- Error body of the 400 validation branch. -/
def missingFieldsMsg : String := "Missing message or sessionId"

/-- Message of the error thrown when a required environment variable is
missing in `sst-server.js`. -/
def missingEnvMsg : String := "Missing required environment variables"

/-- The webhook handler of `sst-server.js` (default export), step by
step in source order: environment check (a throw lands in the catch
block as a 500), validation, authentication, history fetch, prompt
composition, generation, insert of the user and assistant rows as one
operation, success response.  Every thrown error is caught by the
surrounding try/catch and returned as `res.json({ error: err.message }, 500)`. -/
def sstWebhookHandler (env : Env) (w : World) (req : Request) : HandlerResult :=
  if !envOk env then
    ⟨500, false, none, none, some missingEnvMsg, w.store, 0, 0, 0⟩
  else if falsy req.message || falsy req.sessionId then
    ⟨400, false, none, none, some missingFieldsMsg, w.store, 0, 0, 0⟩
  else if req.authToken ≠ env.auth_secret then
    ⟨401, false, none, none, some sstAuthErrorMsg, w.store, 0, 0, 0⟩
  else
    match w.fetchError with
    | some e => ⟨500, false, none, none, some e, w.store, 1, 0, 0⟩
    | none =>
      let sid := req.sessionId.getD ""
      let msg := req.message.getD ""
      let history := (sstQuery w.store sid).reverse
      let finalInput := sstFinalInput sstSystemMsg history msg
      match w.genResult with
      | JsOutcome.thrown e => ⟨500, false, none, some finalInput, some e, w.store, 1, 1, 0⟩
      | JsOutcome.ok output =>
        match w.insertError with
        | some e => ⟨500, false, none, some finalInput, some e, w.store, 1, 1, 1⟩
        | none =>
          ⟨200, true, some output, some finalInput, none,
            w.store ++ [⟨sid, "user", msg⟩, ⟨sid, "assistant", output⟩], 1, 1, 1⟩

/-- Identifiers bound in scope at the `authToken != AUTH_SECRET`
comparison inside the `/webhook` handler of `eng-server.js`: the
module-level bindings plus `req`, `res` and the two destructured body
fields (`const { message, sessionId } = req.body;`).  Notably absent:
`authToken` — no declaration of that name exists anywhere in the file. -/
def engScopeNames : List String :=
  ["createClient", "GOOGLE_API_KEY", "PINECONE_API_KEY", "ENG_PINECONE_INDEX",
   "SUPABASE_URL", "SUPABASE_KEY", "ENGPORT", "AUTH_SECRET", "app", "supabase",
   "pinecone", "pineconeIndex", "vectorStore", "tools", "model", "executor",
   "formatHistory", "serverPort", "req", "res", "message", "sessionId"]

/-- JavaScript identifier resolution at that program point: an unbound
name evaluates to a thrown `ReferenceError: <name> is not defined`. -/
def resolveIdent (name : String) : JsOutcome :=
  if name ∈ engScopeNames then JsOutcome.ok name
  else JsOutcome.thrown (name ++ " is not defined")

/-- The `/webhook` handler of `eng-server.js`, in source order:
validation, then the auth comparison — whose left operand `authToken`
must first be resolved as an identifier; since it is unbound, a
ReferenceError is thrown and caught by the handler's try/catch, giving
`res.status(500).json({ error: err.message })`.  The branches after the
resolution mirror the source (401 branch, ascending unbounded history
fetch, prompt without system prefix, generation, insert, 200) but are
unreachable. -/
def engWebhookHandler (authSecret : String) (w : World) (req : Request) : HandlerResult :=
  if falsy req.message || falsy req.sessionId then
    ⟨400, false, none, none, some missingFieldsMsg, w.store, 0, 0, 0⟩
  else
    match resolveIdent "authToken" with
    | JsOutcome.thrown e =>
      ⟨500, false, none, none, some e, w.store, 0, 0, 0⟩
    | JsOutcome.ok tok =>
      if some tok ≠ some authSecret then
        ⟨401, false, none, none, some engAuthErrorMsg, w.store, 0, 0, 0⟩
      else
        match w.fetchError with
        | some e => ⟨500, false, none, none, some e, w.store, 1, 0, 0⟩
        | none =>
          let sid := req.sessionId.getD ""
          let msg := req.message.getD ""
          let history := engQuery w.store sid
          let finalInput := engFinalInput history msg
          match w.genResult with
          | JsOutcome.thrown e => ⟨500, false, none, some finalInput, some e, w.store, 1, 1, 0⟩
          | JsOutcome.ok output =>
            match w.insertError with
            | some e => ⟨500, false, none, some finalInput, some e, w.store, 1, 1, 1⟩
            | none =>
              ⟨200, true, some output, some finalInput, none,
                w.store ++ [⟨sid, "user", msg⟩, ⟨sid, "assistant", output⟩], 1, 1, 1⟩

/-- The first downstream failure a webhook call runs into, in the order
the handler performs the calls: history fetch, then generation, then
insert.  `none` means all three succeed. -/
def firstError (w : World) : Option String :=
  match w.fetchError with
  | some e => some e
  | none =>
    match w.genResult with
    | JsOutcome.thrown e => some e
    | JsOutcome.ok _ => w.insertError

/-- One webhook call of a multi-call run: the request plus the oracle
outcomes of its downstream operations. -/
structure CallSpec where
  req : Request
  fetchError : Option String
  genResult : JsOutcome
  insertError : Option String
deriving DecidableEq, Repr

/-- The generated reply of a call whose generation succeeded. -/
def genOut (c : CallSpec) : String :=
  match c.genResult with
  | JsOutcome.ok o => o
  | JsOutcome.thrown _ => ""

/-- The two rows a successful call appends for its session: the user
message and the assistant reply, in that order. -/
def callRows (c : CallSpec) (sid : String) : List Row :=
  [⟨sid, "user", c.req.message.getD ""⟩, ⟨sid, "assistant", genOut c⟩]

/-- Conditions under which a call is successful for session `sid`:
well-formed request for that session, matching auth token, and all
three downstream operations succeed. -/
abbrev okCall (env : Env) (sid : String) (c : CallSpec) : Prop :=
  falsy c.req.message = false ∧ c.req.sessionId = some sid ∧
  falsy c.req.sessionId = false ∧ c.req.authToken = env.auth_secret ∧
  c.fetchError = none ∧ c.genResult = JsOutcome.ok (genOut c) ∧
  c.insertError = none

/-- Run a sequence of webhook calls against `sst-server.js`, threading
the store from call to call. -/
def runCalls (env : Env) (store : List Row) : List CallSpec → List Row
  | [] => store
  | c :: cs =>
    runCalls env
      (sstWebhookHandler env ⟨store, c.fetchError, c.genResult, c.insertError⟩ c.req).store cs

/-- Concrete environment used by the closed witness statements. -/
def envW : Env := ⟨some "g", some "p", some "u", some "k", some "secret"⟩

/-- Concrete oracle data with an empty store and all calls succeeding. -/
def emptyWorld : World := ⟨[], none, JsOutcome.ok "reply", none⟩

/-- A request with valid fields but a wrong auth token. -/
def reqWrongToken : Request := ⟨some "hello", some "s1", some "nope"⟩

/-- A request against eng-server with valid fields and a wrong token. -/
def reqWrongTokenEng : Request := ⟨some "hi there", some "s9", some "bad"⟩

/-- A request with an empty message (the spec's validation example). -/
def reqEmptyMessage : Request := ⟨some "", some "s1", some "secret"⟩

/-- A valid authenticated request for the downstream-failure witness. -/
def reqValid : Request := ⟨some "question", some "s1", some "secret"⟩

/-- Oracle data whose history fetch fails. -/
def fetchFailWorld : World := ⟨[], some "fetch boom", JsOutcome.ok "reply", none⟩

/-- A valid request for the eng-server ReferenceError witness. -/
def reqEng : Request := ⟨some "hi", some "s2", some "secret"⟩

/-- The per-user history after ten successful stateful calls. -/
def c8Reachable : List Message :=
  (List.range 10).foldl (fun h i => statefulTurn h ("q" ++ toString i) ("a" ++ toString i)) []

/-- A store holding six rows of session "s1" (three turns). -/
def sixRowStore : List Row :=
  [⟨"s1", "user", "m1"⟩, ⟨"s1", "assistant", "r1"⟩, ⟨"s1", "user", "m2"⟩,
   ⟨"s1", "assistant", "r2"⟩, ⟨"s1", "user", "m3"⟩, ⟨"s1", "assistant", "r3"⟩]

/-- Twenty-five messages to push through the stateful history cap. -/
def msgs25 : List Message := (List.range 25).map (fun i => ⟨"user", toString i⟩)

/-- Two successful calls of session "s1" for the persistence witness. -/
def calls2 : List CallSpec :=
  [⟨⟨some "q1", some "s1", some "secret"⟩, none, JsOutcome.ok "r1", none⟩,
   ⟨⟨some "q2", some "s1", some "secret"⟩, none, JsOutcome.ok "r2", none⟩]

/-- The rows a sequence of successful calls appends for session `sid`,
in call order: user row then assistant row for each call. -/
def turnRows (sid : String) : List CallSpec → List Row
  | [] => []
  | c :: cs => callRows c sid ++ turnRows sid cs

theorem joinSep_length_ge (sep a : String) (rest : List String) :
    a.length ≤ (joinSep sep (a :: rest)).length := by
  induction rest generalizing a with
  | nil => simp [joinSep]
  | cons b rest ih =>
    calc a.length ≤ (a ++ sep).length := by simp [String.length_append]
    _ ≤ (a ++ sep).length + (joinSep sep (b :: rest)).length - b.length := by
          have := ih b
          omega
    _ = (a ++ sep ++ joinSep sep (b :: rest)).length - b.length := by
          simp [String.length_append]
    _ ≤ (joinSep sep (a :: b :: rest)).length := by
          simp [joinSep]

theorem formatEntry_length (msg : Message) : 6 ≤ (formatEntry msg).length := by
  have hu : ("User: " : String).length = 6 := rfl
  have ha : ("Assistant: " : String).length = 11 := rfl
  unfold formatEntry
  split <;> simp [String.length_append] <;> omega

/-- Bridge between the code's truthiness test on the formatted string and
the spec's emptiness test on the history list. -/
theorem formatHistory_eq_empty_iff (history : List Message) :
    formatHistory history = "" ↔ history = [] := by
  constructor
  · intro h
    cases history with
    | nil => rfl
    | cons m rest =>
      exfalso
      have h1 : 6 ≤ (formatEntry m).length := formatEntry_length m
      have h2 : (formatEntry m).length ≤ (formatHistory (m :: rest)).length := by
        simpa [formatHistory] using joinSep_length_ge "\n" (formatEntry m) (rest.map formatEntry)
      rw [h] at h2
      have h0 : ("" : String).length = 0 := rfl
      omega
  · intro h
    subst h
    rfl

/-- C2 (amended): the prompt composer of `sst-server.js` (and the
sci/app-router variants) is a pure function of (systemInstruction,
history, newMessage); with non-empty history the composed prompt is
`"<system>\n<formattedHistory>\nUser: <newMessage>"`, and with empty
history it is exactly `"<system>\nUser: <newMessage>"` with no extra
blank line.  (In `eng-server.js` the system instruction is not part of
the composed prompt — see the counterexample.) -/
theorem sst_compose_spec (sys msg : String) (history : List Message) :
    sstFinalInput sys history msg =
      if history = [] then sys ++ "\nUser: " ++ msg
      else sys ++ "\n" ++ formatHistory history ++ "\nUser: " ++ msg := by
  unfold sstFinalInput
  by_cases h : history = []
  · subst h
    simp [formatHistory, joinSep]
  · rw [if_neg (fun hf => h ((formatHistory_eq_empty_iff history).mp hf)), if_neg h]

/-- C2 (counterexample): the composed prompt of `eng-server.js` with
empty history is `"User: bye"`, not `"<system>\nUser: bye"` — the claim
that every variant prepends the system instruction fails there. -/
theorem eng_compose_omits_system :
    engFinalInput [] "bye" = "User: bye" ∧
    engFinalInput [] "bye" ≠ engSystemContent ++ "\nUser: bye" := by
  decide

/-- C4 (amended): in `sst-server.js` the history fetch is bounded — at
most 5 rows, the most recent ones in recency (descending) order — and
the subsequent `history.reverse()` yields exactly the chronological
(oldest-first) suffix of the session's rows of length at most 5.
(`eng-server.js` instead fetches all session rows ascending with no
limit — see the counterexample.) -/
theorem sst_history_window (store : List Row) (sid : String) :
    (sstQuery store sid).length ≤ 5 ∧
    sstQuery store sid = ((sessionMsgs store sid).reverse).take 5 ∧
    sstGetHistory store sid =
      (sessionMsgs store sid).drop ((sessionMsgs store sid).length - 5) := by
  refine ⟨?_, ?_, ?_⟩
  · simp [sstQuery]
  · simp [sstQuery, sessionMsgs, List.map_take, List.map_reverse]
  · have h := List.rtake_eq_reverse_take_reverse (l := sessionRows store sid) (n := 5)
    unfold List.rtake at h
    calc sstGetHistory store sid
        = ((((sessionRows store sid).reverse).take 5).map rowToMessage).reverse := rfl
      _ = ((((sessionRows store sid).reverse).take 5).reverse).map rowToMessage := by
            simp [List.map_reverse]
      _ = ((sessionRows store sid).drop ((sessionRows store sid).length - 5)).map
            rowToMessage := by rw [← h]
      _ = (sessionMsgs store sid).drop ((sessionMsgs store sid).length - 5) := by
            simp [sessionMsgs, List.map_drop]

/-- C4 (counterexample): the `eng-server.js` history fetch is not
bounded by 5 — with six persisted rows for the session it returns all
six, and it is already chronological (no reversal happens). -/
theorem eng_history_unbounded :
    (engQuery sixRowStore "s1").length = 6 ∧
    ¬((engQuery sixRowStore "s1").length ≤ 5) := by
  decide

theorem pruneOldMessages_length (h : List Message) :
    (pruneOldMessages h).length = min h.length MAX_HISTORY_LENGTH := by
  unfold pruneOldMessages
  split <;> simp <;> omega

/-- Effect of a whole sequence of push-then-prune steps: starting from a
list within the cap, the result is the suffix of all pushed messages
(preceded by the starting content) that fits the cap. -/
theorem foldl_pushAndPrune (l : List Message) :
    ∀ acc : List Message, acc.length ≤ MAX_HISTORY_LENGTH →
      l.foldl pushAndPrune acc =
        (acc ++ l).drop (acc.length + l.length - MAX_HISTORY_LENGTH) := by
  induction l with
  | nil =>
    intro acc hacc
    have hz : acc.length - MAX_HISTORY_LENGTH = 0 := by omega
    simp [hz]
  | cons m t ih =>
    intro acc hacc
    rw [List.foldl_cons]
    by_cases hlen : acc.length + 1 ≤ MAX_HISTORY_LENGTH
    · have hp : pushAndPrune acc m = acc ++ [m] := by
        unfold pushAndPrune pruneOldMessages pushMsg
        have hc : ¬((acc ++ [m]).length > MAX_HISTORY_LENGTH) := by
          simp only [List.length_append, List.length_cons, List.length_nil, gt_iff_lt, not_lt]
          omega
        rw [if_neg hc]
      have harith : (acc ++ [m]).length + t.length - MAX_HISTORY_LENGTH
          = acc.length + (m :: t).length - MAX_HISTORY_LENGTH := by
        simp only [List.length_append, List.length_cons, List.length_nil, List.length_cons]
        omega
      rw [hp, ih (acc ++ [m])
          (by simp only [List.length_append, List.length_cons, List.length_nil]; omega),
        harith, List.append_assoc, List.singleton_append]
    · have hp : pushAndPrune acc m = (acc ++ [m]).drop 1 := by
        unfold pushAndPrune pruneOldMessages pushMsg
        have hc : (acc ++ [m]).length > MAX_HISTORY_LENGTH := by
          simp only [List.length_append, List.length_cons, List.length_nil, gt_iff_lt]
          omega
        rw [if_pos hc]
        have h1 : (acc ++ [m]).length - MAX_HISTORY_LENGTH = 1 := by
          simp only [List.length_append, List.length_cons, List.length_nil]
          omega
        rw [h1]
      have hlen' : ((acc ++ [m]).drop 1).length ≤ MAX_HISTORY_LENGTH := by
        simp only [List.length_drop, List.length_append, List.length_cons, List.length_nil]
        omega
      have hL : ((acc ++ [m]).drop 1).length = MAX_HISTORY_LENGTH := by
        simp only [List.length_drop, List.length_append, List.length_cons, List.length_nil]
        omega
      have harith2 : MAX_HISTORY_LENGTH + t.length - MAX_HISTORY_LENGTH = t.length := by
        omega
      have hdrop1 : ((acc ++ [m]) ++ t).drop 1 = (acc ++ [m]).drop 1 ++ t :=
        List.drop_append_of_le_length
          (by simp only [List.length_append, List.length_cons, List.length_nil]; omega)
      rw [hp, ih _ hlen', hL, harith2, ← hdrop1, List.drop_drop, List.append_assoc,
        List.singleton_append]
      congr 1
      simp only [List.length_cons]
      omega

/-- C3: starting from an empty per-user history with cap
`MAX_HISTORY_LENGTH = 20`, pushing 25 messages — each push followed by
`pruneOldMessages` — leaves exactly the 20 most recently pushed
messages, in oldest-first order. -/
theorem stateful_cap_25 (msgs : List Message) (h : msgs.length = 25) :
    msgs.foldl pushAndPrune [] = msgs.drop 5 ∧
    (msgs.foldl pushAndPrune []).length = MAX_HISTORY_LENGTH := by
  have hf := foldl_pushAndPrune msgs [] (by simp [MAX_HISTORY_LENGTH])
  simp at hf
  have h5 : msgs.length - MAX_HISTORY_LENGTH = 5 := by
    rw [h]
    rfl
  rw [h5] at hf
  refine ⟨hf, ?_⟩
  rw [hf]
  simp [h]
  rfl

/-- C3 (witness): the 25 concrete messages `msgs25` leave exactly their
last 20, oldest first. -/
theorem stateful_cap_25_witness :
    msgs25.length = 25 ∧
    msgs25.foldl pushAndPrune [] = msgs25.drop 5 ∧
    (msgs25.foldl pushAndPrune []).length = MAX_HISTORY_LENGTH :=
  ⟨by decide, (stateful_cap_25 msgs25 (by decide)).1, (stateful_cap_25 msgs25 (by decide)).2⟩

/-- C8 (amended): after every `pruneOldMessages` call — and the stateful
handlers run one immediately after each push — the per-user history
length is at most `MAX_HISTORY_LENGTH`; in particular it is within the
cap at the end of every handler turn.  (Immediately after a push, before
its prune, the length can exceed the cap — see the counterexample.) -/
theorem history_window_invariant :
    (∀ h : List Message, (pruneOldMessages h).length ≤ MAX_HISTORY_LENGTH) ∧
    (∀ (h : List Message) (u a : String),
      (statefulTurn h u a).length ≤ MAX_HISTORY_LENGTH) := by
  constructor
  · intro h
    rw [pruneOldMessages_length]
    omega
  · intro h u a
    unfold statefulTurn pushAndPrune
    rw [pruneOldMessages_length]
    omega

/-- C8 (counterexample): a history of length 20 is reachable (ten
successful stateful calls), and the very next push performed by the
handler — before the prune that follows it — makes the length 21,
exceeding `MAX_HISTORY_LENGTH`; so the invariant does not hold after
every push mutation, only after the prunes. -/
theorem history_push_exceeds_cap :
    c8Reachable.length = MAX_HISTORY_LENGTH ∧
    (pushMsg c8Reachable ⟨"user", "q10"⟩).length = MAX_HISTORY_LENGTH + 1 ∧
    ¬((pushMsg c8Reachable ⟨"user", "q10"⟩).length ≤ MAX_HISTORY_LENGTH) := by
  decide

/-- C1 (amended): in `sst-server.js` (and the variants that destructure
`authToken` from the body), a request with a non-empty message and a
sessionId whose authToken differs from `AUTH_SECRET` is answered 401
with the unauthenticated error body, and no row is written to the
store.  (`eng-server.js` instead answers 500 for every such request,
because its auth comparison references an unbound `authToken` — see the
counterexample.) -/
theorem sst_auth_401 (env : Env) (w : World) (req : Request)
    (henv : envOk env = true)
    (hm : falsy req.message = false) (hs : falsy req.sessionId = false)
    (ha : req.authToken ≠ env.auth_secret) :
    (sstWebhookHandler env w req).status = 401 ∧
    (sstWebhookHandler env w req).errorMsg = some sstAuthErrorMsg ∧
    (sstWebhookHandler env w req).store = w.store ∧
    (sstWebhookHandler env w req).insertCalls = 0 := by
  unfold sstWebhookHandler
  simp [henv, hm, hs, ha]

/-- C1 (witness): a concrete wrong-token request against a configured
environment is answered 401 and the empty store stays empty. -/
theorem sst_auth_401_witness :
    envOk envW = true ∧ falsy reqWrongToken.message = false ∧
    falsy reqWrongToken.sessionId = false ∧
    reqWrongToken.authToken ≠ envW.auth_secret ∧
    (sstWebhookHandler envW emptyWorld reqWrongToken).status = 401 ∧
    (sstWebhookHandler envW emptyWorld reqWrongToken).store = emptyWorld.store :=
  ⟨by decide, by decide, by decide, by decide,
    (sst_auth_401 envW emptyWorld reqWrongToken (by decide) (by decide) (by decide)
      (by decide)).1,
    (sst_auth_401 envW emptyWorld reqWrongToken (by decide) (by decide) (by decide)
      (by decide)).2.2.1⟩

/-- C1 (counterexample): in `eng-server.js` a request with a non-empty
message, a sessionId and a wrong authToken is answered 500 (the
ReferenceError from the unbound `authToken` lands in the catch block),
not 401. -/
theorem eng_auth_not_401 :
    reqWrongTokenEng.authToken ≠ some "secret" ∧
    (engWebhookHandler "secret" emptyWorld reqWrongTokenEng).status = 500 ∧
    (engWebhookHandler "secret" emptyWorld reqWrongTokenEng).status ≠ 401 := by
  decide

/-- C6: a webhook request whose body is missing a non-empty message or
missing a sessionId (including an empty-string message) is answered 400
with the error body "Missing message or sessionId"; no downstream call
is made, the store is untouched, and the handler returns normally. -/
theorem sst_validation_400 (env : Env) (w : World) (req : Request)
    (henv : envOk env = true)
    (hmiss : falsy req.message = true ∨ falsy req.sessionId = true) :
    (sstWebhookHandler env w req).status = 400 ∧
    (sstWebhookHandler env w req).errorMsg = some missingFieldsMsg ∧
    (sstWebhookHandler env w req).store = w.store ∧
    (sstWebhookHandler env w req).fetchCalls = 0 ∧
    (sstWebhookHandler env w req).genCalls = 0 ∧
    (sstWebhookHandler env w req).insertCalls = 0 := by
  unfold sstWebhookHandler
  rcases hmiss with hmiss | hmiss <;> simp [henv, hmiss]

/-- C6 (witness): the spec's example request `{message: "", sessionId:
"s1"}` is answered 400 with the structured error body and no downstream
calls. -/
theorem sst_validation_400_witness :
    envOk envW = true ∧ falsy reqEmptyMessage.message = true ∧
    (sstWebhookHandler envW emptyWorld reqEmptyMessage).status = 400 ∧
    (sstWebhookHandler envW emptyWorld reqEmptyMessage).errorMsg = some missingFieldsMsg ∧
    (sstWebhookHandler envW emptyWorld reqEmptyMessage).fetchCalls = 0 :=
  ⟨by decide, by decide,
    (sst_validation_400 envW emptyWorld reqEmptyMessage (by decide) (Or.inl (by decide))).1,
    (sst_validation_400 envW emptyWorld reqEmptyMessage (by decide) (Or.inl (by decide))).2.1,
    (sst_validation_400 envW emptyWorld reqEmptyMessage (by decide) (Or.inl (by decide))).2.2.2.1⟩

/-- C7: whenever the first failing downstream operation of a valid,
authenticated webhook call throws (history fetch, generation, or the
persistence insert), the handler answers a single 500 whose error field
carries that upstream error message; nothing is retried (every
downstream operation runs at most once) and no partial row survives in
the model. -/
theorem sst_downstream_500 (env : Env) (w : World) (req : Request) (e : String)
    (henv : envOk env = true) (hm : falsy req.message = false)
    (hs : falsy req.sessionId = false) (ha : req.authToken = env.auth_secret)
    (herr : firstError w = some e) :
    (sstWebhookHandler env w req).status = 500 ∧
    (sstWebhookHandler env w req).errorMsg = some e ∧
    (sstWebhookHandler env w req).success = false ∧
    (sstWebhookHandler env w req).store = w.store ∧
    (sstWebhookHandler env w req).fetchCalls ≤ 1 ∧
    (sstWebhookHandler env w req).genCalls ≤ 1 ∧
    (sstWebhookHandler env w req).insertCalls ≤ 1 := by
  unfold firstError at herr
  unfold sstWebhookHandler
  cases hf : w.fetchError with
  | some e1 =>
    rw [hf] at herr
    simp at herr
    subst herr
    simp [henv, hm, hs, ha, hf]
  | none =>
    rw [hf] at herr
    cases hg : w.genResult with
    | thrown e2 =>
      rw [hg] at herr
      simp at herr
      subst herr
      simp [henv, hm, hs, ha, hf, hg]
    | ok output =>
      rw [hg] at herr
      simp at herr
      simp [henv, hm, hs, ha, hf, hg, herr]

/-- C7 (witness): a valid authenticated call whose history fetch fails
with "fetch boom" is answered 500 carrying that message, with no retry. -/
theorem sst_downstream_500_witness :
    envOk envW = true ∧ firstError fetchFailWorld = some "fetch boom" ∧
    (sstWebhookHandler envW fetchFailWorld reqValid).status = 500 ∧
    (sstWebhookHandler envW fetchFailWorld reqValid).errorMsg = some "fetch boom" ∧
    (sstWebhookHandler envW fetchFailWorld reqValid).fetchCalls ≤ 1 :=
  ⟨by decide, by decide,
    (sst_downstream_500 envW fetchFailWorld reqValid "fetch boom" (by decide) (by decide)
      (by decide) (by decide) (by decide)).1,
    (sst_downstream_500 envW fetchFailWorld reqValid "fetch boom" (by decide) (by decide)
      (by decide) (by decide) (by decide)).2.1,
    (sst_downstream_500 envW fetchFailWorld reqValid "fetch boom" (by decide) (by decide)
      (by decide) (by decide) (by decide)).2.2.2.2.1⟩

/-- C9: in the `eng-server.js` webhook handler the auth comparison
references `authToken`, which is bound nowhere in scope (only `message`
and `sessionId` are destructured), so for every request with a
non-empty message and a sessionId the comparison throws a
ReferenceError that the try/catch converts into a 500 — never a 401 and
never a success — regardless of any token the request supplies, and the
store is untouched. -/
theorem eng_handler_always_500 (secret : String) (w : World) (req : Request)
    (hm : falsy req.message = false) (hs : falsy req.sessionId = false) :
    (engWebhookHandler secret w req).status = 500 ∧
    (engWebhookHandler secret w req).status ≠ 401 ∧
    (engWebhookHandler secret w req).success = false ∧
    (engWebhookHandler secret w req).errorMsg = some "authToken is not defined" ∧
    (engWebhookHandler secret w req).store = w.store := by
  have hres : resolveIdent "authToken" = JsOutcome.thrown "authToken is not defined" := by
    decide
  unfold engWebhookHandler
  simp [hm, hs, hres]

/-- C9 (witness): a concrete valid request — even one carrying the
correct token — gets a 500 with the ReferenceError message. -/
theorem eng_handler_always_500_witness :
    falsy reqEng.message = false ∧ falsy reqEng.sessionId = false ∧
    (engWebhookHandler "secret" emptyWorld reqEng).status = 500 ∧
    (engWebhookHandler "secret" emptyWorld reqEng).errorMsg =
      some "authToken is not defined" :=
  ⟨by decide, by decide,
    (eng_handler_always_500 "secret" emptyWorld reqEng (by decide) (by decide)).1,
    (eng_handler_always_500 "secret" emptyWorld reqEng (by decide) (by decide)).2.2.2.1⟩

/-- C5: running any sequence of successful webhook calls for a session
against `sst-server.js` appends, per call, exactly one user row holding
the request message and one assistant row holding the generated reply
— both in the same insert — in call order; starting from a store with
no rows for the session, after N calls the session has exactly the 2N
rows `turnRows`. -/
theorem sst_persists_two_rows (env : Env) (sid : String) (henv : envOk env = true) :
    ∀ (calls : List CallSpec) (store : List Row),
      (∀ c ∈ calls, okCall env sid c) →
      sessionRows (runCalls env store calls) sid
        = sessionRows store sid ++ turnRows sid calls ∧
      (turnRows sid calls).length = 2 * calls.length := by
  intro calls
  induction calls with
  | nil =>
    intro store _
    simp [runCalls, turnRows]
  | cons c cs ih =>
    intro store hall
    obtain ⟨hm, hsid, hsf, hauth, hfetch, hgen, hins⟩ := hall c (by simp)
    have hall' : ∀ x ∈ cs, okCall env sid x := fun x hx => hall x (by simp [hx])
    have hstep :
        (sstWebhookHandler env ⟨store, c.fetchError, c.genResult, c.insertError⟩ c.req).store
          = store ++ callRows c sid := by
      rw [hsid] at hsf
      unfold sstWebhookHandler
      simp [henv, hm, hsf, hauth, hfetch, hgen, hins, callRows, hsid]
    have h2 := ih
      ((sstWebhookHandler env ⟨store, c.fetchError, c.genResult, c.insertError⟩ c.req).store)
      hall'
    rw [hstep] at h2
    have hsess : sessionRows (store ++ callRows c sid) sid
        = sessionRows store sid ++ callRows c sid := by
      simp [sessionRows, callRows, List.filter_append]
    constructor
    · simp only [runCalls]
      rw [hstep, h2.1, hsess, turnRows, List.append_assoc]
    · simp only [turnRows, List.length_append, h2.2, callRows, List.length_cons,
        List.length_nil]
      omega

/-- C5 (witness): two concrete successful calls of session "s1" leave
exactly four rows for the session — user "q1", assistant "r1", user
"q2", assistant "r2" — in call order. -/
theorem sst_persists_two_rows_witness :
    (∀ c ∈ calls2, okCall envW "s1" c) ∧
    sessionRows (runCalls envW [] calls2) "s1"
      = sessionRows ([] : List Row) "s1" ++ turnRows "s1" calls2 ∧
    (turnRows "s1" calls2).length = 2 * calls2.length ∧
    turnRows "s1" calls2 =
      [⟨"s1", "user", "q1"⟩, ⟨"s1", "assistant", "r1"⟩,
       ⟨"s1", "user", "q2"⟩, ⟨"s1", "assistant", "r2"⟩] :=
  ⟨by decide,
    (sst_persists_two_rows envW "s1" (by decide) calls2 [] (by decide)).1,
    (sst_persists_two_rows envW "s1" (by decide) calls2 [] (by decide)).2,
    by decide⟩

end CbseAi
